import Mathlib

/-!
Verification development for the amibussy presence bridge (src/src/main.rs).

The program interprets Toggl Track webhook events into a presence state
machine, publishes chat statuses, sweeps for away detection, supervises an
ngrok tunnel with a self-probe, and restarts generations on failure. The
definitions below are a shallow embedding of the relevant Rust functions:
`webhook_post`, `afk_status_updater`, `ngrok_healthcheck`, `run_server` and
the outer loop in `main`, together with the documented semantics of
`tokio::sync::Notify`, which the code uses as its shutdown signal.
-/

namespace Amibussy

/-- JSON values as produced by serde_json parsing. Objects are association
lists of fields in order. -/
inductive Json where
  | null
  | bool (b : Bool)
  | num (n : Int)
  | str (s : String)
  | arr (elems : List Json)
  | obj (fields : List (String × Json))

/-- Field lookup in an object field list, first match wins
(serde_json Map::get). -/
def lookupField : List (String × Json) → String → Option Json
  | [], _ => none
  | (k, v) :: rest, key => if k = key then some v else lookupField rest key

/-- serde_json `Value::get(key)`: a field of an object, `None` on any other
shape. -/
def Json.get : Json → String → Option Json
  | .obj fields, key => lookupField fields key
  | _, _ => none

/-- serde_json `Value::as_str`: `Some` exactly for JSON strings. -/
def Json.asStr : Json → Option String
  | .str s => some s
  | _ => none

/-- The three named chat statuses the program publishes
(busy / break / away as configured display strings). -/
inductive ChatStatus where
  | busy
  | breakStatus
  | away
deriving DecidableEq, Repr

/-- Outcome of one outbound set-chat-title call. -/
inductive PubOutcome where
  | success
  | remoteRejected (code : Nat)
  | transportError
deriving DecidableEq, Repr

/-- Log lines emitted by the handler (observable only through logging). -/
inductive LogMsg where
  | infoMsg (msg : String)
  | errorMsg (msg : String)
deriving DecidableEq, Repr

/-- The match on `telegram_api_response` in `webhook_post`
(main.rs lines 157 to 167 and 184 to 194): every arm only logs. -/
def publishLog : PubOutcome → List LogMsg
  | .success => [.infoMsg "Successfully updated chat title"]
  | .remoteRejected _ => [.errorMsg "Failed to update chat title"]
  | .transportError => [.errorMsg "HTTP request error"]

/-- HTTP responses the webhook POST handler can produce. -/
inductive HttpResponse where
  | ok
  | okJson (body : Json)
  | badRequest
  | unprocessableEntity

/-- Result of one `webhook_post` invocation: the HTTP response, the value of
`last_break_start` after the call, the list of chat statuses whose publish
was attempted, and the log lines from the publish outcome handling. -/
structure HandlerResult where
  response : HttpResponse
  newState : Nat
  publishes : List ChatStatus
  log : List LogMsg

/-- Shallow embedding of `webhook_post` (main.rs lines 82 to 202) on an
already parsed body. `po` gives the outcome each attempted publish would
have, `lastBreakStart` is the shared `AtomicU64` before the call, `now` is
`get_unix_timestamp()`. Control flow follows the source: reject with 422
when `event_id` or `payload` is absent (line 98 uses a disjunction); then
the ping-validation block for a string payload (lines 106 to 119, a string
other than "ping" falls through to the final 200); then the object-payload
block (lines 121 to 199) keyed on the string-valued `start` and `stop`
fields; everything else answers 200 untouched (line 201). -/
def webhookPost (po : ChatStatus → PubOutcome) (body : Json)
    (lastBreakStart : Nat) (now : Nat) : HandlerResult :=
  if (Json.get body "event_id").isNone || (Json.get body "payload").isNone then
    ⟨.unprocessableEntity, lastBreakStart, [], [.errorMsg "Unknown event received"]⟩
  else
    match Json.get body "payload" with
    | some (Json.str s) =>
      if s = "ping" then
        match (Json.get body "validation_code").bind Json.asStr with
        | some code =>
            ⟨.okJson (.obj [("validation_code", .str code)]), lastBreakStart, [], []⟩
        | none =>
            ⟨.badRequest, lastBreakStart, [],
              [.errorMsg "Validation code missing in PING event"]⟩
      else ⟨.ok, lastBreakStart, [], []⟩
    | some (Json.obj payloadFields) =>
      match (lookupField payloadFields "start").bind Json.asStr,
            (lookupField payloadFields "stop").bind Json.asStr with
      | some _, some _ => ⟨.ok, now, [.breakStatus], publishLog (po .breakStatus)⟩
      | some _, none => ⟨.ok, 0, [.busy], publishLog (po .busy)⟩
      | none, _ => ⟨.ok, lastBreakStart, [], []⟩
    | _ => ⟨.ok, lastBreakStart, [], []⟩

/-- Modulus of the u64 arithmetic in the Rust source. -/
def U64MOD : Nat := 2 ^ 64

/-- One sweep iteration body of `afk_status_updater` (main.rs lines 284 to
311) after the select has picked the tick branch: returns the new
`last_break_start` and the publishes attempted. The comparison
`current_time > last_break + minutes_till_afk * 60` is u64 wrapping
arithmetic, hence the explicit moduli. -/
def afkTick (minutesTillAfk lastBreak now : Nat) : Nat × List ChatStatus :=
  if lastBreak = 0 then (lastBreak, [])
  else if now > (lastBreak + minutesTillAfk * 60 % U64MOD) % U64MOD then
    (0, [ChatStatus.away])
  else (lastBreak, [])

/-- Result of one self-probe GET in `ngrok_healthcheck`. -/
inductive ProbeResult where
  | transportError
  | httpStatus (code : Nat)
deriving DecidableEq, Repr

/-- The failure test at main.rs line 330:
`response.is_err() || response.unwrap().status() != StatusCode::OK`. -/
def probeFails : ProbeResult → Bool
  | .transportError => true
  | .httpStatus code => code ≠ 200

/-- The `ngrok_healthcheck` loop (main.rs lines 319 to 335) run against the
sequence of outcomes successive probes would return, shutdown aside: yields
(number of probe ticks performed, number of times the shutdown signal is
triggered). On a failing probe it triggers once and breaks; on a succeeding
probe it loops. -/
def healthcheckRun : List ProbeResult → Nat × Nat
  | [] => (0, 0)
  | r :: rest =>
    if probeFails r then (1, 1)
    else
      let z := healthcheckRun rest
      (z.1 + 1, z.2)

/-- State of a `tokio::sync::Notify`, per its documented semantics: at most
one stored permit, plus the set of currently registered waiters (represented
by their count). `notify_one` wakes one registered waiter, or stores the
single permit if none is registered; `notify_waiters` wakes exactly the
currently registered waiters and stores no permit; `notified().await`
returns immediately only when a permit is stored (consuming it), otherwise
it registers and blocks. -/
structure NotifyState where
  permit : Bool
  registeredWaiters : Nat
deriving DecidableEq, Repr

/-- `tokio::sync::Notify::new()`: no permit, no waiters
(created fresh in `run_server`, main.rs line 230). -/
def freshNotify : NotifyState := ⟨false, 0⟩

/-- `notify_one` (used by `ngrok_healthcheck`, main.rs line 332): returns
the new state and how many waiters were woken. -/
def notifyOne (s : NotifyState) : NotifyState × Nat :=
  if 0 < s.registeredWaiters then (⟨s.permit, s.registeredWaiters - 1⟩, 1)
  else (⟨true, s.registeredWaiters⟩, 0)

/-- `notify_waiters` (used by `run_server`, main.rs line 259): wakes all
currently registered waiters, stores no permit. -/
def notifyWaiters (s : NotifyState) : NotifyState × Nat :=
  (⟨s.permit, 0⟩, s.registeredWaiters)

/-- Whether a task that only starts `notified().await` in this state sees
the signal as already fired (returns without blocking): exactly when a
permit is stored. -/
def beginWaitSeesFired (s : NotifyState) : Bool := s.permit

/-- Events a select loop (AfkSweeper or TunnelSupervisor) observes: a timer
tick, or a wake from the shutdown signal. -/
inductive LoopEvent where
  | tick
  | shutdownWake
deriving DecidableEq, Repr

/-- Ticks a select loop completes over an event sequence: it breaks out of
the loop on the shutdown wake (main.rs lines 276 to 282 and 320 to 326). -/
def loopTicksProcessed : List LoopEvent → Nat
  | [] => 0
  | .shutdownWake :: _ => 0
  | .tick :: rest => 1 + loopTicksProcessed rest

/-- How one generation of the outer loop in `main` ends: the spawned server
task finishing first, or ctrl_c winning the select. -/
inductive GenOutcome where
  | serverDone
  | ctrlC
deriving DecidableEq, Repr

/-- One iteration of the outer loop in `main` (main.rs lines 378 to 406):
either `start_ngrok_listener` fails, or it succeeds and the generation runs
to some outcome. -/
inductive SupEvent where
  | establishFail
  | generation (outcome : GenOutcome)
deriving DecidableEq, Repr

/-- Observable actions of the outer loop: sleeping, starting a generation
(with the initial presence value and the fresh shutdown signal that
`run_server` creates, main.rs lines 229 to 230), or exiting the loop. -/
inductive SupAction where
  | sleepSecs (n : Nat)
  | startGeneration (presence : Nat) (shutdown : NotifyState)
  | exitLoop
deriving DecidableEq, Repr

/-- The outer loop of `main` over a sequence of iteration events: tunnel
establishment failure sleeps 10 seconds and retries (lines 381 to 385); a
generation ending with the server done logs, sleeps 5 seconds and loops
(lines 391 to 397 then 405); ctrl_c breaks out of the loop immediately
(lines 398 to 401), skipping the sleep. -/
def supervisorRun : List SupEvent → List SupAction
  | [] => []
  | .establishFail :: rest => .sleepSecs 10 :: supervisorRun rest
  | .generation .serverDone :: rest =>
      .startGeneration 0 freshNotify :: .sleepSecs 5 :: supervisorRun rest
  | .generation .ctrlC :: _ =>
      [.startGeneration 0 freshNotify, .exitLoop]

/-- A publish-outcome environment where every publish succeeds. -/
def constSuccess : ChatStatus → PubOutcome := fun _ => .success

/-- A concrete body holding an `event_id` but no `payload`. -/
def bodyEventIdOnly : Json := .obj [("event_id", .num 1)]

/-- A session-stopped shaped payload without an `event_id` sibling. -/
def bodySessionStoppedNoEventId : Json :=
  .obj [("payload", .obj [("start", .str "t1"), ("stop", .str "t2")])]

/-- A session-started shaped payload without an `event_id` sibling. -/
def bodySessionStartedNoEventId : Json :=
  .obj [("payload", .obj [("start", .str "t1")])]

/-- A ping body with a string validation code but no `event_id` sibling. -/
def bodyPingNoEventId : Json :=
  .obj [("payload", .str "ping"), ("validation_code", .str "abc")]

/-- A ping body whose validation code is a number, not a string. -/
def bodyPingNumericCode : Json :=
  .obj [("event_id", .num 1), ("payload", .str "ping"), ("validation_code", .num 5)]

/-- A payload with only a `stop` string field, no `event_id` sibling. -/
def bodyStopOnlyNoEventId : Json :=
  .obj [("payload", .obj [("stop", .str "t2")])]

/-- A payload whose `start` is a string but whose `stop` is a number. -/
def bodyStartStrStopNum : Json :=
  .obj [("event_id", .num 1), ("payload", .obj [("start", .str "t1"), ("stop", .num 5)])]

/-- A well-formed session-stopped event body. -/
def bodySessionStopped : Json :=
  .obj [("event_id", .num 1), ("payload", .obj [("start", .str "t1"), ("stop", .str "t2")])]

/-- A well-formed session-started event body. -/
def bodySessionStarted : Json :=
  .obj [("event_id", .num 1), ("payload", .obj [("start", .str "t1")])]

/-- A well-formed ping body with a string validation code. -/
def bodyPingWithCode : Json :=
  .obj [("event_id", .num 1), ("payload", .str "ping"), ("validation_code", .str "abc")]

/-- A ping body with an `event_id` but no validation code at all. -/
def bodyPingNoCode : Json :=
  .obj [("event_id", .num 1), ("payload", .str "ping")]

/-- A body whose payload has only a `stop` string field, with `event_id`. -/
def bodyStopOnly : Json :=
  .obj [("event_id", .num 1), ("payload", .obj [("stop", .str "t2")])]

/-! ## Helper lemmas about the webhook handler -/

theorem webhookPost_sessionStopped (po : ChatStatus → PubOutcome) (body : Json)
    (pf : List (String × Json)) (s now : Nat) (t1 t2 : String)
    (hid : (Json.get body "event_id").isSome = true)
    (hp : Json.get body "payload" = some (Json.obj pf))
    (hstart : (lookupField pf "start").bind Json.asStr = some t1)
    (hstop : (lookupField pf "stop").bind Json.asStr = some t2) :
    webhookPost po body s now =
      ⟨HttpResponse.ok, now, [ChatStatus.breakStatus],
        publishLog (po ChatStatus.breakStatus)⟩ := by
  obtain ⟨ev, hev⟩ := Option.isSome_iff_exists.mp hid
  simp [webhookPost, hev, hp, hstart, hstop]

theorem webhookPost_sessionStarted (po : ChatStatus → PubOutcome) (body : Json)
    (pf : List (String × Json)) (s now : Nat) (t1 : String)
    (hid : (Json.get body "event_id").isSome = true)
    (hp : Json.get body "payload" = some (Json.obj pf))
    (hstart : (lookupField pf "start").bind Json.asStr = some t1)
    (hstop : (lookupField pf "stop").bind Json.asStr = none) :
    webhookPost po body s now =
      ⟨HttpResponse.ok, 0, [ChatStatus.busy], publishLog (po ChatStatus.busy)⟩ := by
  obtain ⟨ev, hev⟩ := Option.isSome_iff_exists.mp hid
  simp [webhookPost, hev, hp, hstart, hstop]

theorem webhookPost_ignoredObj (po : ChatStatus → PubOutcome) (body : Json)
    (pf : List (String × Json)) (s now : Nat)
    (hid : (Json.get body "event_id").isSome = true)
    (hp : Json.get body "payload" = some (Json.obj pf))
    (hstart : (lookupField pf "start").bind Json.asStr = none) :
    webhookPost po body s now = ⟨HttpResponse.ok, s, [], []⟩ := by
  obtain ⟨ev, hev⟩ := Option.isSome_iff_exists.mp hid
  simp [webhookPost, hev, hp, hstart]

theorem webhookPost_pingWithCode (po : ChatStatus → PubOutcome) (body : Json)
    (s now : Nat) (code : String)
    (hid : (Json.get body "event_id").isSome = true)
    (hp : Json.get body "payload" = some (Json.str "ping"))
    (hvc : (Json.get body "validation_code").bind Json.asStr = some code) :
    webhookPost po body s now =
      ⟨HttpResponse.okJson (.obj [("validation_code", .str code)]), s, [], []⟩ := by
  obtain ⟨ev, hev⟩ := Option.isSome_iff_exists.mp hid
  simp [webhookPost, hev, hp, hvc]

theorem webhookPost_pingNoCode (po : ChatStatus → PubOutcome) (body : Json)
    (s now : Nat)
    (hid : (Json.get body "event_id").isSome = true)
    (hp : Json.get body "payload" = some (Json.str "ping"))
    (hvc : (Json.get body "validation_code").bind Json.asStr = none) :
    webhookPost po body s now =
      ⟨HttpResponse.badRequest, s, [],
        [.errorMsg "Validation code missing in PING event"]⟩ := by
  obtain ⟨ev, hev⟩ := Option.isSome_iff_exists.mp hid
  simp [webhookPost, hev, hp, hvc]

/-! ## Claim C1 -/

/-- C1 counterexample: a body that parses as a JSON object, contains an
`event_id` field, and merely lacks `payload`, is rejected with 422 by
`webhook_post` — the claim states a body containing at least one of the two
fields is not rejected with 422. -/
theorem c1_counterexample :
    (Json.get bodyEventIdOnly "event_id").isSome = true ∧
    (webhookPost constSuccess bodyEventIdOnly 0 1000).response =
      HttpResponse.unprocessableEntity :=
  ⟨rfl, rfl⟩

/-- C1 (amended): for every request body that parses as a JSON object, the
handler responds 422 exactly when the body lacks `event_id` OR lacks
`payload`; only a body containing both fields proceeds past the 422
rejection (main.rs line 98 tests the two absences with a disjunction). -/
theorem c1_unprocessable_iff (po : ChatStatus → PubOutcome)
    (fields : List (String × Json)) (s now : Nat) :
    (webhookPost po (Json.obj fields) s now).response =
        HttpResponse.unprocessableEntity ↔
      ((lookupField fields "event_id").isNone ∨
        (lookupField fields "payload").isNone) := by
  unfold webhookPost
  rcases he : Json.get (Json.obj fields) "event_id" with _ | ev
  · simp only [Json.get] at he
    simp [Json.get, he]
  · rcases hp : Json.get (Json.obj fields) "payload" with _ | pv
    · simp only [Json.get] at he hp
      simp [Json.get, he, hp]
    · simp only [Json.get] at he hp
      rcases pv with _ | b | n | sv | elems | pfields
      · simp [Json.get, he, hp]
      · simp [Json.get, he, hp]
      · simp [Json.get, he, hp]
      · by_cases hping : sv = "ping"
        · subst hping
          rcases hvc : (Json.get (Json.obj fields) "validation_code").bind Json.asStr
              with _ | code
          · simp only [Json.get] at hvc
            simp [Json.get, he, hp, hvc]
          · simp only [Json.get] at hvc
            simp [Json.get, he, hp, hvc]
        · simp [Json.get, he, hp, hping]
      · simp [Json.get, he, hp]
      · rcases hs : (lookupField pfields "start").bind Json.asStr with _ | t
        · simp [Json.get, he, hp, hs]
        · rcases hst : (lookupField pfields "stop").bind Json.asStr with _ | t2
          · simp [Json.get, he, hp, hs, hst]
          · simp [Json.get, he, hp, hs, hst]

/-- C1 witness: the amended rejection law evaluated on a concrete object
that carries a `payload` but no `event_id`. -/
theorem c1_unprocessable_iff_witness :
    (webhookPost constSuccess (Json.obj [("payload", Json.str "x")]) 0 1000).response =
      HttpResponse.unprocessableEntity :=
  (c1_unprocessable_iff constSuccess [("payload", Json.str "x")] 0 1000).mpr
    (Or.inl rfl)

/-! ## Claim C5 -/

/-- C5 counterexample: a request whose payload is a JSON object with both
`start` and `stop` string fields, but which carries no `event_id`, is
answered 422 with PresenceState untouched and no publish attempted — the
claim states every such request gets a 200, a state write and a `break`
publish. -/
theorem c5_counterexample :
    (webhookPost constSuccess bodySessionStoppedNoEventId 7 1000).response =
      HttpResponse.unprocessableEntity ∧
    (webhookPost constSuccess bodySessionStoppedNoEventId 7 1000).newState = 7 ∧
    (webhookPost constSuccess bodySessionStoppedNoEventId 7 1000).publishes = [] :=
  ⟨rfl, rfl, rfl⟩

/-- C5 (amended): for every request carrying an `event_id` field whose
payload is a JSON object with both `start` and `stop` string fields, the
handler stores the current wall-clock time (non-zero) into PresenceState,
attempts exactly one `break` status publish, and responds 200; response,
committed state and attempted publishes are the same whatever outcome the
publish has. -/
theorem c5_session_stopped (po po2 : ChatStatus → PubOutcome) (body : Json)
    (pf : List (String × Json)) (s now : Nat) (t1 t2 : String)
    (hid : (Json.get body "event_id").isSome = true)
    (hp : Json.get body "payload" = some (Json.obj pf))
    (hstart : (lookupField pf "start").bind Json.asStr = some t1)
    (hstop : (lookupField pf "stop").bind Json.asStr = some t2)
    (hnow : 0 < now) :
    (webhookPost po body s now).response = HttpResponse.ok ∧
    (webhookPost po body s now).newState = now ∧
    0 < (webhookPost po body s now).newState ∧
    (webhookPost po body s now).publishes = [ChatStatus.breakStatus] ∧
    (webhookPost po body s now).response = (webhookPost po2 body s now).response ∧
    (webhookPost po body s now).newState = (webhookPost po2 body s now).newState ∧
    (webhookPost po body s now).publishes = (webhookPost po2 body s now).publishes := by
  rw [webhookPost_sessionStopped po body pf s now t1 t2 hid hp hstart hstop,
      webhookPost_sessionStopped po2 body pf s now t1 t2 hid hp hstart hstop]
  exact ⟨rfl, rfl, hnow, rfl, rfl, rfl, rfl⟩

/-- C5 witness: the amended claim evaluated on a concrete session-stopped
request, with two distinct publish-outcome environments. -/
theorem c5_session_stopped_witness :
    (webhookPost constSuccess bodySessionStopped 7 1000).response = HttpResponse.ok ∧
    (webhookPost constSuccess bodySessionStopped 7 1000).newState = 1000 ∧
    0 < (webhookPost constSuccess bodySessionStopped 7 1000).newState ∧
    (webhookPost constSuccess bodySessionStopped 7 1000).publishes =
      [ChatStatus.breakStatus] ∧
    (webhookPost constSuccess bodySessionStopped 7 1000).response =
      (webhookPost (fun _ => PubOutcome.transportError) bodySessionStopped 7 1000).response ∧
    (webhookPost constSuccess bodySessionStopped 7 1000).newState =
      (webhookPost (fun _ => PubOutcome.transportError) bodySessionStopped 7 1000).newState ∧
    (webhookPost constSuccess bodySessionStopped 7 1000).publishes =
      (webhookPost (fun _ => PubOutcome.transportError) bodySessionStopped 7 1000).publishes :=
  c5_session_stopped constSuccess (fun _ => PubOutcome.transportError)
    bodySessionStopped [("start", Json.str "t1"), ("stop", Json.str "t2")]
    7 1000 "t1" "t2" rfl rfl rfl rfl (by decide)

/-! ## Claim C6 -/

/-- C6 counterexample: a request whose payload is a JSON object with a
`start` string field and no `stop` field, but which carries no `event_id`,
is answered 422 with no `busy` publish attempted — the claim states every
such request gets a 200 and a `busy` publish. -/
theorem c6_counterexample :
    (webhookPost constSuccess bodySessionStartedNoEventId 7 1000).response =
      HttpResponse.unprocessableEntity ∧
    (webhookPost constSuccess bodySessionStartedNoEventId 7 1000).publishes = [] :=
  ⟨rfl, rfl⟩

/-- C6 (amended): for every request carrying an `event_id` field whose
payload is a JSON object with a `start` string field and no `stop` field,
the handler resets PresenceState to 0, attempts exactly one `busy` status
publish, and responds 200, with response, state and attempted publishes the
same whatever outcome the publish has. -/
theorem c6_session_started (po po2 : ChatStatus → PubOutcome) (body : Json)
    (pf : List (String × Json)) (s now : Nat) (t1 : String)
    (hid : (Json.get body "event_id").isSome = true)
    (hp : Json.get body "payload" = some (Json.obj pf))
    (hstart : (lookupField pf "start").bind Json.asStr = some t1)
    (hstop : lookupField pf "stop" = none) :
    (webhookPost po body s now).response = HttpResponse.ok ∧
    (webhookPost po body s now).newState = 0 ∧
    (webhookPost po body s now).publishes = [ChatStatus.busy] ∧
    (webhookPost po body s now).response = (webhookPost po2 body s now).response ∧
    (webhookPost po body s now).newState = (webhookPost po2 body s now).newState ∧
    (webhookPost po body s now).publishes = (webhookPost po2 body s now).publishes := by
  have hstop' : (lookupField pf "stop").bind Json.asStr = none := by
    rw [hstop]; rfl
  rw [webhookPost_sessionStarted po body pf s now t1 hid hp hstart hstop',
      webhookPost_sessionStarted po2 body pf s now t1 hid hp hstart hstop']
  exact ⟨rfl, rfl, rfl, rfl, rfl, rfl⟩

/-- C6 witness: the amended claim evaluated on a concrete session-started
request, with two distinct publish-outcome environments. -/
theorem c6_session_started_witness :
    (webhookPost constSuccess bodySessionStarted 7 1000).response = HttpResponse.ok ∧
    (webhookPost constSuccess bodySessionStarted 7 1000).newState = 0 ∧
    (webhookPost constSuccess bodySessionStarted 7 1000).publishes = [ChatStatus.busy] ∧
    (webhookPost constSuccess bodySessionStarted 7 1000).response =
      (webhookPost (fun _ => PubOutcome.remoteRejected 500) bodySessionStarted 7 1000).response ∧
    (webhookPost constSuccess bodySessionStarted 7 1000).newState =
      (webhookPost (fun _ => PubOutcome.remoteRejected 500) bodySessionStarted 7 1000).newState ∧
    (webhookPost constSuccess bodySessionStarted 7 1000).publishes =
      (webhookPost (fun _ => PubOutcome.remoteRejected 500) bodySessionStarted 7 1000).publishes :=
  c6_session_started constSuccess (fun _ => PubOutcome.remoteRejected 500)
    bodySessionStarted [("start", Json.str "t1")] 7 1000 "t1" rfl rfl rfl rfl

/-! ## Claim C7 -/

/-- C7 counterexample: a body with payload exactly "ping" and a string
validation code but no `event_id` is answered 422, not 200; and a body with
`event_id`, payload "ping" and a numeric `validation_code` is answered 400,
although the claim says any present `validation_code` value is echoed with
a 200. -/
theorem c7_counterexample :
    (webhookPost constSuccess bodyPingNoEventId 3 50).response =
      HttpResponse.unprocessableEntity ∧
    (webhookPost constSuccess bodyPingNumericCode 3 50).response =
      HttpResponse.badRequest :=
  ⟨rfl, rfl⟩

/-- C7 (amended): for every request carrying an `event_id` field whose
payload is exactly the string "ping": if a `validation_code` field with a
string value V is present the handler responds 200 with JSON body
echoing V and PresenceState is unchanged; if `validation_code` is absent or
not a string the handler responds 400, also without mutating
PresenceState; no publish is attempted either way. -/
theorem c7_ping (po : ChatStatus → PubOutcome) (body : Json) (s now : Nat)
    (hid : (Json.get body "event_id").isSome = true)
    (hp : Json.get body "payload" = some (Json.str "ping")) :
    (∀ code : String, Json.get body "validation_code" = some (Json.str code) →
      (webhookPost po body s now).response =
          HttpResponse.okJson (.obj [("validation_code", .str code)]) ∧
        (webhookPost po body s now).newState = s ∧
        (webhookPost po body s now).publishes = []) ∧
    ((Json.get body "validation_code").bind Json.asStr = none →
      (webhookPost po body s now).response = HttpResponse.badRequest ∧
        (webhookPost po body s now).newState = s ∧
        (webhookPost po body s now).publishes = []) := by
  constructor
  · intro code hvc
    have hvc' : (Json.get body "validation_code").bind Json.asStr = some code := by
      rw [hvc]; rfl
    rw [webhookPost_pingWithCode po body s now code hid hp hvc']
    exact ⟨rfl, rfl, rfl⟩
  · intro hvc
    rw [webhookPost_pingNoCode po body s now hid hp hvc]
    exact ⟨rfl, rfl, rfl⟩

/-- C7 witness: the amended claim evaluated on a concrete ping request with
a string code and on one without any code. -/
theorem c7_ping_witness :
    (webhookPost constSuccess bodyPingWithCode 3 50).response =
      HttpResponse.okJson (.obj [("validation_code", .str "abc")]) ∧
    (webhookPost constSuccess bodyPingWithCode 3 50).newState = 3 ∧
    (webhookPost constSuccess bodyPingNoCode 3 50).response =
      HttpResponse.badRequest ∧
    (webhookPost constSuccess bodyPingNoCode 3 50).newState = 3 :=
  ⟨((c7_ping constSuccess bodyPingWithCode 3 50 rfl rfl).1 "abc" rfl).1,
   ((c7_ping constSuccess bodyPingWithCode 3 50 rfl rfl).1 "abc" rfl).2.1,
   ((c7_ping constSuccess bodyPingNoCode 3 50 rfl rfl).2 rfl).1,
   ((c7_ping constSuccess bodyPingNoCode 3 50 rfl rfl).2 rfl).2.1⟩

/-! ## Claim C9 -/

/-- C9: handling a SessionStarted event (payload object with a string
`start` and no string `stop`, `event_id` present) is idempotent with
respect to PresenceState: the first application leaves PresenceState at 0
and attempts one `busy` publish, and applying the same event again from the
resulting state leaves PresenceState at 0 again and again attempts its own
`busy` publish. -/
theorem c9_session_started_idempotent (po : ChatStatus → PubOutcome) (body : Json)
    (pf : List (String × Json)) (s now now2 : Nat) (t1 : String)
    (hid : (Json.get body "event_id").isSome = true)
    (hp : Json.get body "payload" = some (Json.obj pf))
    (hstart : (lookupField pf "start").bind Json.asStr = some t1)
    (hstop : (lookupField pf "stop").bind Json.asStr = none) :
    (webhookPost po body s now).newState = 0 ∧
    (webhookPost po body s now).publishes = [ChatStatus.busy] ∧
    (webhookPost po body (webhookPost po body s now).newState now2).newState = 0 ∧
    (webhookPost po body (webhookPost po body s now).newState now2).publishes =
      [ChatStatus.busy] := by
  simp [webhookPost_sessionStarted po body pf s now t1 hid hp hstart hstop,
        webhookPost_sessionStarted po body pf 0 now2 t1 hid hp hstart hstop]

/-- C9 witness: idempotence evaluated on a concrete session-started
request. -/
theorem c9_session_started_idempotent_witness :
    (webhookPost constSuccess bodySessionStarted 7 50).newState = 0 ∧
    (webhookPost constSuccess bodySessionStarted 7 50).publishes = [ChatStatus.busy] ∧
    (webhookPost constSuccess bodySessionStarted
      (webhookPost constSuccess bodySessionStarted 7 50).newState 60).newState = 0 ∧
    (webhookPost constSuccess bodySessionStarted
      (webhookPost constSuccess bodySessionStarted 7 50).newState 60).publishes =
      [ChatStatus.busy] :=
  c9_session_started_idempotent constSuccess bodySessionStarted
    [("start", Json.str "t1")] 7 50 60 "t1" rfl rfl rfl rfl

/-! ## Claim C10 -/

/-- C10 counterexample: a payload object with only a `stop` string field but
no `event_id` sibling is answered 422, not 200; and a payload whose `start`
is a string while `stop` is a number is treated as SessionStarted (a `busy`
publish and a state reset), not as Ignored. -/
theorem c10_counterexample :
    (webhookPost constSuccess bodyStopOnlyNoEventId 7 50).response =
      HttpResponse.unprocessableEntity ∧
    (webhookPost constSuccess bodyStartStrStopNum 7 50).publishes =
      [ChatStatus.busy] ∧
    (webhookPost constSuccess bodyStartStrStopNum 7 50).newState = 0 :=
  ⟨rfl, rfl, rfl⟩

/-- C10 (amended): for every request carrying an `event_id` field whose
payload is a JSON object in which the `start` field is absent or not a JSON
string — in particular an object with only a `stop` string field — the
handler responds 200, leaves PresenceState unchanged and attempts no
publish; but when `start` is a string and `stop` is present without being a
string, the request is instead handled as SessionStarted: a `busy` publish
is attempted and PresenceState is reset to 0. -/
theorem c10_ignored (po : ChatStatus → PubOutcome) (body body2 : Json)
    (pf pf2 : List (String × Json)) (s s2 now now2 : Nat) (t : String) (j : Json)
    (hid : (Json.get body "event_id").isSome = true)
    (hp : Json.get body "payload" = some (Json.obj pf))
    (hstart : (lookupField pf "start").bind Json.asStr = none)
    (hid2 : (Json.get body2 "event_id").isSome = true)
    (hp2 : Json.get body2 "payload" = some (Json.obj pf2))
    (hstart2 : (lookupField pf2 "start").bind Json.asStr = some t)
    (hstop2 : lookupField pf2 "stop" = some j) (hj : Json.asStr j = none) :
    ((webhookPost po body s now).response = HttpResponse.ok ∧
      (webhookPost po body s now).newState = s ∧
      (webhookPost po body s now).publishes = []) ∧
    ((webhookPost po body2 s2 now2).response = HttpResponse.ok ∧
      (webhookPost po body2 s2 now2).newState = 0 ∧
      (webhookPost po body2 s2 now2).publishes = [ChatStatus.busy]) := by
  have hstop2a : (lookupField pf2 "stop").bind Json.asStr = none := by
    rw [hstop2, Option.some_bind, hj]
  rw [webhookPost_ignoredObj po body pf s now hid hp hstart,
      webhookPost_sessionStarted po body2 pf2 s2 now2 t hid2 hp2 hstart2 hstop2a]
  exact ⟨⟨rfl, rfl, rfl⟩, ⟨rfl, rfl, rfl⟩⟩

/-- C10 witness: the amended claim evaluated on a concrete stop-only
request and a concrete request with a string `start` and a numeric
`stop`. -/
theorem c10_ignored_witness :
    ((webhookPost constSuccess bodyStopOnly 7 50).response = HttpResponse.ok ∧
      (webhookPost constSuccess bodyStopOnly 7 50).newState = 7 ∧
      (webhookPost constSuccess bodyStopOnly 7 50).publishes = []) ∧
    ((webhookPost constSuccess bodyStartStrStopNum 9 60).response = HttpResponse.ok ∧
      (webhookPost constSuccess bodyStartStrStopNum 9 60).newState = 0 ∧
      (webhookPost constSuccess bodyStartStrStopNum 9 60).publishes =
        [ChatStatus.busy]) :=
  c10_ignored constSuccess bodyStopOnly bodyStartStrStopNum
    [("stop", Json.str "t2")] [("start", Json.str "t1"), ("stop", Json.num 5)]
    7 9 50 60 "t1" (Json.num 5) rfl rfl rfl rfl rfl rfl rfl rfl

/-! ## Claim C2 -/

/-- C2: one AfkSweeper sweep tick. If PresenceState is 0 nothing happens;
if it is positive and `now` is strictly greater than PresenceState plus the
threshold `minutes_till_afk * 60` seconds, the sweeper attempts an `away`
publish and resets PresenceState to 0; otherwise PresenceState is
unchanged. In particular, PresenceState = now - (threshold + 1) fires the
transition and PresenceState = now - (threshold - 1) does not. The
no-overflow side conditions discharge the u64 moduli of the source. -/
theorem c2_afk_tick (minutes lastBreak now : Nat) :
    (lastBreak = 0 → afkTick minutes lastBreak now = (lastBreak, [])) ∧
    (lastBreak + minutes * 60 < U64MOD →
      (0 < lastBreak → now > lastBreak + minutes * 60 →
        afkTick minutes lastBreak now = (0, [ChatStatus.away])) ∧
      (¬ now > lastBreak + minutes * 60 →
        afkTick minutes lastBreak now = (lastBreak, []))) ∧
    (minutes * 60 + 1 < now → now < U64MOD →
      afkTick minutes (now - (minutes * 60 + 1)) now = (0, [ChatStatus.away])) ∧
    (now + 1 < U64MOD →
      afkTick minutes (now - (minutes * 60 - 1)) now =
        (now - (minutes * 60 - 1), [])) := by
  have hU : U64MOD = 18446744073709551616 := by norm_num [U64MOD]
  refine ⟨fun h => by simp [afkTick, h],
    fun hnw => ⟨fun h0 hgt => ?_, fun hle => ?_⟩, fun h1 h2 => ?_, fun h3 => ?_⟩
  · rw [hU] at hnw
    unfold afkTick
    rw [if_neg (by omega), if_pos (by rw [hU]; omega)]
  · rw [hU] at hnw
    unfold afkTick
    by_cases h0 : lastBreak = 0
    · rw [if_pos h0]
    · rw [if_neg h0, if_neg (by rw [hU]; omega)]
  · rw [hU] at h2
    unfold afkTick
    rw [if_neg (by omega), if_pos (by rw [hU]; omega)]
  · rw [hU] at h3
    unfold afkTick
    by_cases h0 : now - (minutes * 60 - 1) = 0
    · rw [if_pos h0]
    · rw [if_neg h0, if_neg (by rw [hU]; omega)]

/-- C2 witness: the sweep tick evaluated at a 30-minute threshold on the
idle state, a firing state, a not-yet-due state, and the two boundary
states of the claim. -/
theorem c2_afk_tick_witness :
    afkTick 30 0 5000 = (0, []) ∧
    afkTick 30 100 5000 = (0, [ChatStatus.away]) ∧
    afkTick 30 4000 5000 = (4000, []) ∧
    afkTick 30 (5000 - (30 * 60 + 1)) 5000 = (0, [ChatStatus.away]) ∧
    afkTick 30 (5000 - (30 * 60 - 1)) 5000 = (5000 - (30 * 60 - 1), []) := by
  have h0 := c2_afk_tick 30 0 5000
  have h1 := c2_afk_tick 30 100 5000
  have h2 := c2_afk_tick 30 4000 5000
  refine ⟨h0.1 rfl, (h1.2.1 (by norm_num [U64MOD])).1 (by norm_num) (by norm_num),
    (h2.2.1 (by norm_num [U64MOD])).2 (by norm_num),
    h0.2.2.1 (by norm_num) (by norm_num [U64MOD]),
    h0.2.2.2 (by norm_num [U64MOD])⟩

/-! ## Claim C3 -/

theorem healthcheckRun_all_ok (l : List ProbeResult)
    (h : ∀ x ∈ l, probeFails x = false) :
    healthcheckRun l = (l.length, 0) := by
  induction l with
  | nil => rfl
  | cons r rest ih =>
    have hr : probeFails r = false := h r (List.mem_cons_self r rest)
    have hrest : ∀ x ∈ rest, probeFails x = false :=
      fun x hx => h x (List.mem_cons_of_mem r hx)
    simp [healthcheckRun, hr, ih hrest]

theorem healthcheckRun_first_fail (pre post : List ProbeResult) (f : ProbeResult)
    (hpre : ∀ x ∈ pre, probeFails x = false) (hf : probeFails f = true) :
    healthcheckRun (pre ++ f :: post) = (pre.length + 1, 1) := by
  induction pre with
  | nil => simp [healthcheckRun, hf]
  | cons r rest ih =>
    have hr : probeFails r = false := hpre r (List.mem_cons_self r rest)
    have hrest : ∀ x ∈ rest, probeFails x = false :=
      fun x hx => hpre x (List.mem_cons_of_mem r hx)
    simp [healthcheckRun, hr, ih hrest]

/-- C3: a probe is a failure exactly when it errors transport-side or
returns a status other than 200 (the success status of the self-probe); a
run of the TunnelSupervisor loop over probes that all succeed performs
every tick and never triggers the shutdown signal; a run whose first
failure comes after `pre` successful probes performs exactly
`pre.length + 1` ticks, triggers the signal exactly once, and performs no
further probe ticks for that generation. -/
theorem c3_tunnel_probe (r f : ProbeResult) (l pre post : List ProbeResult) :
    (probeFails r = true ↔
      (r = ProbeResult.transportError ∨
        ∃ c, r = ProbeResult.httpStatus c ∧ c ≠ 200)) ∧
    ((∀ x ∈ l, probeFails x = false) → healthcheckRun l = (l.length, 0)) ∧
    ((∀ x ∈ pre, probeFails x = false) → probeFails f = true →
      healthcheckRun (pre ++ f :: post) = (pre.length + 1, 1)) := by
  refine ⟨?_, healthcheckRun_all_ok l, healthcheckRun_first_fail pre post f⟩
  cases r with
  | transportError => simp [probeFails]
  | httpStatus c => simp [probeFails]

/-- C3 witness: a run of two succeeding probes, and a run whose second
probe errors transport-side with a further probe outcome behind it that is
never reached. -/
theorem c3_tunnel_probe_witness :
    healthcheckRun [ProbeResult.httpStatus 200, ProbeResult.httpStatus 200] = (2, 0) ∧
    healthcheckRun [ProbeResult.httpStatus 200, ProbeResult.transportError,
      ProbeResult.httpStatus 200] = (2, 1) := by
  have h := c3_tunnel_probe (ProbeResult.httpStatus 200) ProbeResult.transportError
      [ProbeResult.httpStatus 200, ProbeResult.httpStatus 200]
      [ProbeResult.httpStatus 200] [ProbeResult.httpStatus 200]
  exact ⟨h.2.1 (by decide), h.2.2 (by decide) (by decide)⟩

/-! ## Claim C4 -/

/-- C4 counterexample: the shutdown signal is not level-triggered for late
observers. After the `notify_waiters` trigger of `run_server` from a state
with no stored permit and two registered waiters, a task that only begins
waiting afterwards does not see the signal as fired; likewise after the
`notify_one` trigger of the healthcheck from a state with one registered
waiter. -/
theorem c4_counterexample :
    beginWaitSeesFired (notifyWaiters ⟨false, 2⟩).1 = false ∧
    beginWaitSeesFired (notifyOne ⟨false, 1⟩).1 = false := by
  decide

/-- C4 (amended): the shutdown signal has the semantics of
`tokio::sync::Notify`: `notify_waiters` wakes exactly the waiters
registered at trigger time, leaving none registered and storing no permit;
`notify_one` wakes one registered waiter, or stores the single permit when
none is registered; a task that begins waiting sees the signal as fired
only when a permit is stored; and a loop that observes the shutdown wake
completes no further ticks afterwards. -/
theorem c4_shutdown_signal (s : NotifyState) (pre post : List LoopEvent) :
    ((notifyWaiters s).2 = s.registeredWaiters ∧
      (notifyWaiters s).1.registeredWaiters = 0 ∧
      (notifyWaiters s).1.permit = s.permit) ∧
    (0 < s.registeredWaiters →
      notifyOne s = (⟨s.permit, s.registeredWaiters - 1⟩, 1)) ∧
    (s.registeredWaiters = 0 → notifyOne s = (⟨true, 0⟩, 0)) ∧
    (beginWaitSeesFired s = s.permit) ∧
    (loopTicksProcessed (pre ++ LoopEvent.shutdownWake :: post) =
      loopTicksProcessed (pre ++ [LoopEvent.shutdownWake])) := by
  refine ⟨⟨rfl, rfl, rfl⟩, ?_, ?_, rfl, ?_⟩
  · intro h
    simp [notifyOne, h]
  · intro h
    simp [notifyOne, h]
  · induction pre with
    | nil => rfl
    | cons e rest ih =>
      cases e with
      | tick => simp [loopTicksProcessed, ih]
      | shutdownWake => simp [loopTicksProcessed]

/-- C4 witness: the amended signal semantics evaluated on concrete states
and a concrete loop trace with a tick after the shutdown wake. -/
theorem c4_shutdown_signal_witness :
    (notifyWaiters ⟨false, 3⟩).2 = 3 ∧
    notifyOne ⟨false, 2⟩ = (⟨false, 1⟩, 1) ∧
    notifyOne ⟨false, 0⟩ = (⟨true, 0⟩, 0) ∧
    loopTicksProcessed ([LoopEvent.tick, LoopEvent.tick] ++
        LoopEvent.shutdownWake :: [LoopEvent.tick]) =
      loopTicksProcessed ([LoopEvent.tick, LoopEvent.tick] ++
        [LoopEvent.shutdownWake]) := by
  have h2 := c4_shutdown_signal ⟨false, 2⟩ [LoopEvent.tick, LoopEvent.tick]
      [LoopEvent.tick]
  have h0 := c4_shutdown_signal ⟨false, 0⟩ [] []
  have h3 := c4_shutdown_signal ⟨false, 3⟩ [] []
  exact ⟨h3.1.1, h2.2.1 (by decide), h0.2.2.1 rfl, h2.2.2.2.2⟩

/-! ## Claim C8 -/

theorem supervisorRun_startGeneration (t : List SupEvent) (p : Nat) (n : NotifyState)
    (h : SupAction.startGeneration p n ∈ supervisorRun t) :
    p = 0 ∧ n = freshNotify := by
  induction t with
  | nil => simp [supervisorRun] at h
  | cons e rest ih =>
    cases e with
    | establishFail =>
      simp only [supervisorRun, List.mem_cons] at h
      rcases h with h | h
      · exact absurd h (by simp)
      · exact ih h
    | generation o =>
      cases o with
      | serverDone =>
        simp only [supervisorRun, List.mem_cons] at h
        rcases h with h | h | h
        · rcases SupAction.startGeneration.inj h with ⟨hp, hn⟩
          exact ⟨hp, hn⟩
        · exact absurd h (by simp)
        · exact ih h
      | ctrlC =>
        simp only [supervisorRun, List.mem_cons, List.not_mem_nil, or_false] at h
        rcases h with h | h
        · rcases SupAction.startGeneration.inj h with ⟨hp, hn⟩
          exact ⟨hp, hn⟩
        · exact absurd h (by simp)

theorem supervisorRun_exit_iff (t : List SupEvent) :
    SupAction.exitLoop ∈ supervisorRun t ↔
      SupEvent.generation GenOutcome.ctrlC ∈ t := by
  induction t with
  | nil => simp [supervisorRun]
  | cons e rest ih =>
    cases e with
    | establishFail => simp [supervisorRun, ih]
    | generation o =>
      cases o with
      | serverDone => simp [supervisorRun, ih]
      | ctrlC => simp [supervisorRun]

/-- C8: the outer Supervisor loop, for every iteration: on
tunnel-establishment failure it emits a 10-second wait and retries with the
remaining events; on a generation ending without operator cancellation it
starts the generation with a fresh PresenceState cell initialized to 0 and
a fresh shutdown signal (no permit, no waiters), waits 5 seconds, and
continues; every generation ever started is fresh in this sense; and the
loop exits exactly when operator cancellation (ctrl_c) occurs. -/
theorem c8_supervisor (t rest : List SupEvent) (p : Nat) (n : NotifyState) :
    (supervisorRun (SupEvent.establishFail :: rest) =
      SupAction.sleepSecs 10 :: supervisorRun rest) ∧
    (supervisorRun (SupEvent.generation GenOutcome.serverDone :: rest) =
      SupAction.startGeneration 0 freshNotify :: SupAction.sleepSecs 5 ::
        supervisorRun rest) ∧
    (freshNotify.permit = false ∧ freshNotify.registeredWaiters = 0) ∧
    (SupAction.startGeneration p n ∈ supervisorRun t → p = 0 ∧ n = freshNotify) ∧
    (SupAction.exitLoop ∈ supervisorRun t ↔
      SupEvent.generation GenOutcome.ctrlC ∈ t) :=
  ⟨rfl, rfl, ⟨rfl, rfl⟩, supervisorRun_startGeneration t p n, supervisorRun_exit_iff t⟩

/-- C8 witness: the supervisor law evaluated on a concrete event trace with
an establishment failure, a server-done generation and a ctrl_c. -/
theorem c8_supervisor_witness :
    (0 = 0 ∧ freshNotify = freshNotify) ∧
    SupAction.exitLoop ∈ supervisorRun [SupEvent.establishFail,
      SupEvent.generation GenOutcome.serverDone,
      SupEvent.generation GenOutcome.ctrlC] := by
  have h := c8_supervisor [SupEvent.establishFail,
      SupEvent.generation GenOutcome.serverDone,
      SupEvent.generation GenOutcome.ctrlC] [] 0 freshNotify
  exact ⟨h.2.2.2.1 (by decide), h.2.2.2.2.mpr (by decide)⟩

end Amibussy
